import Mathlib

/-!
Verification of `src/scripts/extract_pdf_text.py`, a CLI wrapper around
PyPDF2 that extracts text from a PDF and prints an `ExtractionResult`
record as JSON.

The script is embedded shallowly:

* The filesystem together with the PyPDF2 library is abstracted as a
  `PdfEnv`: either opening/parsing the file raises (`openFail` carries the
  message of the raised exception), or it yields a document whose pages
  each behave in one of three ways when `page.extract_text()` is called —
  raise an exception, return `None`, or return a string.
* Python dicts are embedded as ordered key/value lists (`PyDict`), so the
  presence or absence of a key (e.g. `"error"`) is observable exactly as
  in the source.
* `str.strip()` is embedded as `pyStrip` (drop whitespace characters from
  both ends); Python truthiness of a string is emptiness.
* Exceptions inside the `try` block are embedded with `Except`: the page
  loop returns `Except.error msg` where the Python loop would raise, and
  `extract_text_from_pdf` maps that to the failure dict, exactly as the
  `except Exception` handler does.
-/

namespace ExtractPdf

/-- A JSON-serializable Python value appearing in the script's dicts. -/
inductive PyVal where
  | bool (b : Bool)
  | str (s : String)
  | nat (n : Nat)
  deriving DecidableEq, Repr

/-- A Python dict as an ordered association list, so key presence is
observable. -/
abbrev PyDict := List (String × PyVal)

/-- Whitespace predicate used by Python `str.strip()` (restricted to the
ASCII whitespace characters, which is what `Char.isWhitespace` covers). -/
def pyIsSpace (c : Char) : Bool := c.isWhitespace

/-- Strip `pyIsSpace` characters from both ends of a character list. -/
def stripChars (l : List Char) : List Char :=
  ((l.dropWhile pyIsSpace).reverse.dropWhile pyIsSpace).reverse

/-- Embedding of Python `str.strip()`: remove leading and trailing
whitespace. -/
def pyStrip (s : String) : String := ⟨stripChars s.data⟩

/-- Outcome of calling `page.extract_text()` on one page: the call can
raise, or return `None`, or return a string. -/
inductive PageRead where
  | raise (msg : String)
  | extracted (t : Option String)
  deriving DecidableEq, Repr

/-- Behaviour of the filesystem plus PyPDF2 on one path: either
`open`/`PdfReader` raises with some message, or it yields a parsed
document, i.e. the list `reader.pages` described by what each page's
`extract_text()` call does. -/
inductive PdfEnv where
  | openFail (msg : String)
  | doc (pages : List PageRead)
  deriving DecidableEq, Repr

/-- Message of the `AttributeError` Python raises when `.strip()` is
called on `None` (i.e. when `extract_text()` returned no string). -/
def noneStripMsg : String :=
  "\x27NoneType\x27 object has no attribute \x27strip\x27"

/-- The page loop of `extract_text_from_pdf`: iterate the pages in order,
threading the accumulator `extracted_text`.  A page whose `extract_text()`
raises aborts the loop with that message; a page that returns `None` makes
the subsequent `page_text.strip()` raise an `AttributeError`; a page whose
text is non-empty after stripping is appended followed by a double line
break, any other page is skipped. -/
def extractLoop : List PageRead → String → Except String String
  | [], acc => .ok acc
  | .raise msg :: _, _ => .error msg
  | .extracted none :: _, _ => .error noneStripMsg
  | .extracted (some t) :: rest, acc =>
      extractLoop rest (if pyStrip t ≠ "" then acc ++ (t ++ "\n\n") else acc)

/-- The dict built by the `except Exception` handler. -/
def failureDict (msg : String) : PyDict :=
  [("success", .bool false), ("error", .str msg), ("text", .str ""),
   ("pages", .nat 0), ("length", .nat 0)]

/-- The dict returned on the success path: the final `extracted_text`
(after the outer strip) together with `total_pages` and the character
count of the text. -/
def successDict (text : String) (totalPages : Nat) : PyDict :=
  [("success", .bool true), ("text", .str text),
   ("pages", .nat totalPages), ("length", .nat text.length)]

/-- Embedding of `extract_text_from_pdf`: on an open/parse failure or a
failure inside the page loop return the failure dict with the exception's
message; otherwise strip the accumulated text and return the success
dict. -/
def extract_text_from_pdf (env : PdfEnv) : PyDict :=
  match env with
  | .openFail msg => failureDict msg
  | .doc pages =>
      match extractLoop pages "" with
      | .error msg => failureDict msg
      | .ok acc => successDict (pyStrip acc) pages.length

/-- What the `__main__` block observably does: the dict it prints and the
process exit code. -/
structure MainOutcome where
  printed : PyDict
  exitCode : Nat
  deriving DecidableEq, Repr

/-- The usage-error dict printed when the argument count is wrong. -/
def usageDict : PyDict :=
  [("success", .bool false),
   ("error", .str "Usage: python extract_pdf_text.py <pdf_path>"),
   ("text", .str ""), ("pages", .nat 0), ("length", .nat 0)]

/-- Embedding of the `__main__` block.  `argv` is the full `sys.argv`
(program name included); `fs` gives the behaviour of the filesystem and
library on each path.  With `len(sys.argv) != 2` the usage dict is printed
and the process exits 1; otherwise the extraction result for `sys.argv[1]`
is printed and the process exits 0. -/
def runMain (argv : List String) (fs : String → PdfEnv) : MainOutcome :=
  if h : argv.length = 2 then
    ⟨extract_text_from_pdf (fs (argv.get ⟨1, by omega⟩)), 0⟩
  else
    ⟨usageDict, 1⟩

/-- The strings actually returned by `extract_text()` across the page
list, in page order. -/
def pageTexts : List PageRead → List String :=
  List.filterMap (fun r =>
    match r with
    | .extracted (some t) => some t
    | _ => none)

/-- Characterization of what the page loop appends: each page text kept by
the non-empty test, followed by a double line break. -/
def codeCat : List String → String
  | [] => ""
  | t :: ts => (if pyStrip t ≠ "" then t ++ "\n\n" else "") ++ codeCat ts

/-- Concatenation with a trailing separator after every element. -/
def trailJoin : List String → String
  | [] => ""
  | t :: ts => t ++ "\n\n" ++ trailJoin ts

/-- The spec's description of the text: the kept page texts joined with a
blank line BETWEEN consecutive pages (no trailing separator). -/
def sepJoinSpec : List String → String
  | [] => ""
  | [t] => t
  | t :: ts => t ++ "\n\n" ++ sepJoinSpec ts

/-- The spec's description of the final `text` field: keep exactly the
page texts that are non-empty after trimming, join them with a blank line,
and trim the result. -/
def specText (ts : List String) : String :=
  pyStrip (sepJoinSpec (ts.filter (fun t => pyStrip t ≠ "")))

/-! Helper lemmas about strings and the page loop. -/

/-- Dropping whitespace from the front of a whitespace-only pair of line
breaks yields nothing. -/
theorem dropWhile_sep : List.dropWhile pyIsSpace ['\n', '\n'] = [] := rfl

/-- Stripping is unaffected by appending the two line-break characters. -/
theorem stripChars_append_sep (l : List Char) :
    stripChars (l ++ ['\n', '\n']) = stripChars l := by
  unfold stripChars
  rw [List.dropWhile_append]
  by_cases h : (l.dropWhile pyIsSpace).isEmpty
  · rw [if_pos h]
    rw [List.isEmpty_iff] at h
    rw [h, dropWhile_sep]
  · rw [if_neg h]
    rw [List.reverse_append]
    show ((List.dropWhile pyIsSpace
      ('\n' :: '\n' :: (l.dropWhile pyIsSpace).reverse))).reverse = _
    simp [List.dropWhile, pyIsSpace]

/-- String version of `stripChars_append_sep`. -/
theorem pyStrip_append_sep (s : String) : pyStrip (s ++ "\n\n") = pyStrip s := by
  show (⟨stripChars (s ++ "\n\n").data⟩ : String) = ⟨stripChars s.data⟩
  rw [String.data_append]
  show (⟨stripChars (s.data ++ ['\n', '\n'])⟩ : String) = _
  rw [stripChars_append_sep]

/-- Running the loop over pages that all return a string appends exactly
`codeCat` of those strings to the accumulator and continues with the
remaining pages. -/
theorem extractLoop_map_append (ts : List String) (more : List PageRead)
    (acc : String) :
    extractLoop ((ts.map fun t => .extracted (some t)) ++ more) acc =
      extractLoop more (acc ++ codeCat ts) := by
  induction ts generalizing acc with
  | nil => rw [List.map_nil, List.nil_append]; rw [codeCat, String.append_empty]
  | cons t ts ih =>
      rw [List.map_cons, List.cons_append]
      show extractLoop _ (if pyStrip t ≠ "" then acc ++ (t ++ "\n\n") else acc) = _
      by_cases h : pyStrip t ≠ ""
      · rw [if_pos h, ih]
        rw [codeCat, if_pos h, String.append_assoc]
      · rw [if_neg h, ih]
        rw [codeCat, if_neg h, String.empty_append]

/-- The loop over an all-string document succeeds with the concatenated
kept texts. -/
theorem extractLoop_map (ts : List String) (acc : String) :
    extractLoop (ts.map fun t => .extracted (some t)) acc =
      .ok (acc ++ codeCat ts) := by
  have h := extractLoop_map_append ts [] acc
  rw [List.append_nil] at h
  rw [h]; rfl

/-- The loop concatenation equals the trailing-separator join of the
filtered page texts. -/
theorem codeCat_eq_trailJoin (ts : List String) :
    codeCat ts = trailJoin (ts.filter fun t => pyStrip t ≠ "") := by
  induction ts with
  | nil => rfl
  | cons t ts ih =>
      rw [codeCat, List.filter_cons]
      by_cases h : pyStrip t ≠ ""
      · rw [if_pos h, if_pos (by simpa using h), trailJoin, ih, String.append_assoc]
      · rw [if_neg h, if_neg (by simpa using h), ih, String.empty_append]

/-- A non-empty trailing-separator join is the between-pages join followed
by one extra separator. -/
theorem trailJoin_eq_sepJoin_append (k : String) (ks : List String) :
    trailJoin (k :: ks) = sepJoinSpec (k :: ks) ++ "\n\n" := by
  induction ks generalizing k with
  | nil => rw [trailJoin, trailJoin, String.append_empty]; rfl
  | cons k2 ks ih =>
      rw [trailJoin, ih k2]
      show _ = (k ++ "\n\n" ++ sepJoinSpec (k2 :: ks)) ++ "\n\n"
      rw [String.append_assoc (k ++ "\n\n")]

/-- After the outer strip, the trailing-separator join and the
between-pages join agree. -/
theorem pyStrip_trailJoin (ks : List String) :
    pyStrip (trailJoin ks) = pyStrip (sepJoinSpec ks) := by
  cases ks with
  | nil => rfl
  | cons k ks => rw [trailJoin_eq_sepJoin_append, pyStrip_append_sep]

/-- Full characterization of the success path: on a document whose pages
all return a string, the script returns the success dict whose text is the
spec's filtered join. -/
theorem extract_doc_map (ts : List String) :
    extract_text_from_pdf (.doc (ts.map fun t => .extracted (some t))) =
      successDict (specText ts) ts.length := by
  show (match extractLoop (ts.map fun t => PageRead.extracted (some t)) "" with
    | .error msg => failureDict msg
    | .ok acc => successDict (pyStrip acc)
        (ts.map fun t => PageRead.extracted (some t)).length) = _
  rw [extractLoop_map, String.empty_append]
  show successDict (pyStrip (codeCat ts))
    (ts.map fun t => PageRead.extracted (some t)).length = _
  rw [codeCat_eq_trailJoin, pyStrip_trailJoin, List.length_map]
  rfl

/-- If the page loop succeeds, every page returned a string, so the page
list is determined by its texts. -/
theorem extractLoop_ok_shape (pages : List PageRead) (acc res : String)
    (h : extractLoop pages acc = .ok res) :
    pages = (pageTexts pages).map fun t => .extracted (some t) := by
  induction pages generalizing acc with
  | nil => rfl
  | cons p rest ih =>
      cases p with
      | raise msg => exact absurd h (by simp [extractLoop])
      | extracted t =>
          cases t with
          | none => exact absurd h (by simp [extractLoop])
          | some t =>
              rw [extractLoop] at h
              have hrest := ih _ h
              show PageRead.extracted (some t) :: rest =
                (pageTexts (PageRead.extracted (some t) :: rest)).map
                  fun s => PageRead.extracted (some s)
              rw [pageTexts, List.filterMap_cons]
              show PageRead.extracted (some t) :: rest =
                (t :: pageTexts rest).map fun s => PageRead.extracted (some s)
              rw [List.map_cons, ← hrest]

/-- A document in which every page's `extract_text()` returns a string. -/
def allStringPages (ts : List String) : List PageRead :=
  ts.map fun t => PageRead.extracted (some t)

/-- On a document page list, a loop error becomes the failure dict. -/
theorem extract_doc_of_loop_error (pages : List PageRead) (msg : String)
    (h : extractLoop pages "" = .error msg) :
    extract_text_from_pdf (.doc pages) = failureDict msg := by
  show (match extractLoop pages "" with
    | .error m => failureDict m
    | .ok a => successDict (pyStrip a) pages.length) = _
  rw [h]

/-- On a document page list, a loop success becomes the success dict. -/
theorem extract_doc_of_loop_ok (pages : List PageRead) (acc : String)
    (h : extractLoop pages "" = .ok acc) :
    extract_text_from_pdf (.doc pages) = successDict (pyStrip acc) pages.length := by
  show (match extractLoop pages "" with
    | .error m => failureDict m
    | .ok a => successDict (pyStrip a) pages.length) = _
  rw [h]

/-- Restatement of `extract_doc_map` through `allStringPages`. -/
theorem extract_allStringPages (ts : List String) :
    extract_text_from_pdf (.doc (allStringPages ts)) =
      successDict (specText ts) ts.length := by
  simp only [allStringPages]
  exact extract_doc_map ts

/-! Claim theorems. -/

/-- C1: for every PDF whose extraction succeeds, the result is the success
dict whose text is the concatenation, in ascending page order, of exactly
the per-page texts that are non-empty after trimming whitespace, with
consecutive kept pages separated by a blank line and the final result
trimmed of leading/trailing whitespace. -/
theorem C1_success_text_is_filtered_join (pages : List PageRead)
    (h : (extract_text_from_pdf (.doc pages)).lookup "success" =
      some (PyVal.bool true)) :
    extract_text_from_pdf (.doc pages) =
      successDict (specText (pageTexts pages)) pages.length := by
  cases henv : extractLoop pages "" with
  | error msg =>
      exfalso
      have hfalse : (extract_text_from_pdf (.doc pages)).lookup "success" =
          some (PyVal.bool false) := by
        rw [extract_doc_of_loop_error pages msg henv]
        rfl
      rw [h] at hfalse
      exact absurd hfalse (by decide)
  | ok acc =>
      have hshape := extractLoop_ok_shape pages "" acc henv
      have hlen : (pageTexts pages).length = pages.length := by
        conv_rhs => rw [hshape]
        rw [List.length_map]
      conv_lhs => rw [hshape]
      rw [extract_doc_map, hlen]

/-- Witness for C1 at a concrete three-page document (a whitespace-only
middle page is dropped). -/
theorem C1_witness :
    ((extract_text_from_pdf (.doc [PageRead.extracted (some "A"),
        PageRead.extracted (some " "), PageRead.extracted (some "B")])).lookup
      "success" = some (PyVal.bool true)) ∧
    extract_text_from_pdf (.doc [PageRead.extracted (some "A"),
        PageRead.extracted (some " "), PageRead.extracted (some "B")]) =
      successDict (specText (pageTexts [PageRead.extracted (some "A"),
        PageRead.extracted (some " "), PageRead.extracted (some "B")])) 3 :=
  ⟨by decide, C1_success_text_is_filtered_join
    [PageRead.extracted (some "A"), PageRead.extracted (some " "),
     PageRead.extracted (some "B")] (by decide)⟩

/-- C2: for a valid multi-page PDF with at least one page that has
non-whitespace text, `success` is true, `pages` is the library's page
count, and `length` is the character count of `text`. -/
theorem C2_valid_multipage (ts : List String) (_hmulti : 2 ≤ ts.length)
    (_hsome : ∃ t ∈ ts, pyStrip t ≠ "") :
    (extract_text_from_pdf (.doc (allStringPages ts))).lookup "success" =
      some (PyVal.bool true) ∧
    (extract_text_from_pdf (.doc (allStringPages ts))).lookup "pages" =
      some (PyVal.nat ts.length) ∧
    ∃ text, (extract_text_from_pdf (.doc (allStringPages ts))).lookup "text" =
        some (PyVal.str text) ∧
      (extract_text_from_pdf (.doc (allStringPages ts))).lookup "length" =
        some (PyVal.nat text.length) := by
  rw [extract_allStringPages]
  exact ⟨rfl, rfl, specText ts, rfl, rfl⟩

/-- Witness for C2 at the concrete two-page document with texts "A" and
"B". -/
theorem C2_witness :
    (2 ≤ (["A", "B"] : List String).length ∧
      ∃ t ∈ (["A", "B"] : List String), pyStrip t ≠ "") ∧
    ((extract_text_from_pdf (.doc (allStringPages ["A", "B"]))).lookup
        "success" = some (PyVal.bool true) ∧
     (extract_text_from_pdf (.doc (allStringPages ["A", "B"]))).lookup
        "pages" = some (PyVal.nat (["A", "B"] : List String).length) ∧
     ∃ text, (extract_text_from_pdf (.doc (allStringPages ["A", "B"]))).lookup
          "text" = some (PyVal.str text) ∧
        (extract_text_from_pdf (.doc (allStringPages ["A", "B"]))).lookup
          "length" = some (PyVal.nat text.length)) :=
  ⟨⟨by decide, by decide⟩,
   C2_valid_multipage ["A", "B"] (by decide) (by decide)⟩

/-- C3: an error while opening/parsing the file, or while extracting any
page's text, yields exactly the failure dict with the underlying message;
text accumulated from earlier pages is discarded. -/
theorem C3_failure_discards_partial :
    (∀ msg, extract_text_from_pdf (.openFail msg) = failureDict msg) ∧
    (∀ ts msg rest, extract_text_from_pdf
        (.doc (allStringPages ts ++ PageRead.raise msg :: rest)) =
      failureDict msg) := by
  constructor
  · intro msg
    rfl
  · intro ts msg rest
    apply extract_doc_of_loop_error
    simp only [allStringPages]
    rw [extractLoop_map_append]
    rfl

/-- C4: a wrong argument count prints the usage dict and exits 1; exactly
one argument prints the extraction result for that path and exits 0,
whatever that result is. -/
theorem C4_cli (prog : String) (args : List String) (fs : String → PdfEnv) :
    (args.length = 0 ∨ 2 ≤ args.length →
      runMain (prog :: args) fs = ⟨usageDict, 1⟩) ∧
    (∀ path, runMain [prog, path] fs =
      ⟨extract_text_from_pdf (fs path), 0⟩) := by
  constructor
  · intro h
    have hne : (prog :: args).length ≠ 2 := by
      rw [List.length_cons]
      omega
    rw [runMain, dif_neg hne]
  · intro path
    rfl

/-- Witness for C4: zero arguments exit 1 with the usage dict; one
argument exits 0 with the extraction result. -/
theorem C4_witness :
    (([] : List String).length = 0 ∨ 2 ≤ ([] : List String).length) ∧
    runMain ["prog"] (fun _ => PdfEnv.doc []) = ⟨usageDict, 1⟩ ∧
    runMain ["prog", "x"] (fun _ => PdfEnv.doc []) =
      ⟨extract_text_from_pdf (PdfEnv.doc []), 0⟩ :=
  ⟨Or.inl rfl,
   (C4_cli "prog" [] (fun _ => PdfEnv.doc [])).1 (Or.inl rfl),
   (C4_cli "prog" ["x"] (fun _ => PdfEnv.doc [])).2 "x"⟩

/-- C5: when every page's text strips to empty, the result is success with
empty text, length 0, and the true page count. -/
theorem C5_all_blank (ts : List String) (h : ∀ t ∈ ts, pyStrip t = "") :
    extract_text_from_pdf (.doc (allStringPages ts)) =
      [("success", PyVal.bool true), ("text", PyVal.str ""),
       ("pages", PyVal.nat ts.length), ("length", PyVal.nat 0)] := by
  rw [extract_allStringPages]
  have hfilter : ts.filter (fun t => pyStrip t ≠ "") = [] := by
    rw [List.filter_eq_nil_iff]
    intro t ht
    simp [h t ht]
  show successDict (pyStrip (sepJoinSpec (ts.filter fun t => pyStrip t ≠ "")))
      ts.length = _
  rw [hfilter]
  rfl

/-- Witness for C5 at a two-page document of whitespace-only texts. -/
theorem C5_witness :
    (∀ t ∈ (["  ", "\n"] : List String), pyStrip t = "") ∧
    extract_text_from_pdf (.doc (allStringPages ["  ", "\n"])) =
      [("success", PyVal.bool true), ("text", PyVal.str ""),
       ("pages", PyVal.nat (["  ", "\n"] : List String).length),
       ("length", PyVal.nat 0)] :=
  ⟨by decide, C5_all_blank ["  ", "\n"] (by decide)⟩

/-- C6: a two-page document with texts "A" and "B" yields exactly the text
"A\n\nB". -/
theorem C6_two_pages :
    (extract_text_from_pdf (.doc [PageRead.extracted (some "A"),
        PageRead.extracted (some "B")])).lookup "text" =
      some (PyVal.str "A\n\nB") := by
  decide

/-- C7: extraction is total and every possible outcome is either the
success dict or the failure dict; no modelled error escapes uncaught. -/
theorem C7_no_uncaught (env : PdfEnv) :
    (∃ text totalPages,
      extract_text_from_pdf env = successDict text totalPages) ∨
    (∃ msg, extract_text_from_pdf env = failureDict msg) := by
  cases env with
  | openFail msg => exact Or.inr ⟨msg, rfl⟩
  | doc pages =>
      cases h : extractLoop pages "" with
      | error msg =>
          exact Or.inr ⟨msg, extract_doc_of_loop_error pages msg h⟩
      | ok acc =>
          exact Or.inl ⟨pyStrip acc, pages.length,
            extract_doc_of_loop_ok pages acc h⟩

/-- C8: two runs on the same unmodified file, i.e. with the library
exhibiting the same behaviour both times, agree on text, pages and
length. -/
theorem C8_idempotent (env1 env2 : PdfEnv) (h : env1 = env2) :
    (extract_text_from_pdf env1).lookup "text" =
      (extract_text_from_pdf env2).lookup "text" ∧
    (extract_text_from_pdf env1).lookup "pages" =
      (extract_text_from_pdf env2).lookup "pages" ∧
    (extract_text_from_pdf env1).lookup "length" =
      (extract_text_from_pdf env2).lookup "length" := by
  rw [h]
  exact ⟨rfl, rfl, rfl⟩

/-- Witness for C8 at a concrete one-page document. -/
theorem C8_witness :
    (PdfEnv.doc [PageRead.extracted (some "A")] =
      PdfEnv.doc [PageRead.extracted (some "A")]) ∧
    ((extract_text_from_pdf (PdfEnv.doc [PageRead.extracted (some "A")])).lookup
        "text" =
      (extract_text_from_pdf (PdfEnv.doc [PageRead.extracted (some "A")])).lookup
        "text" ∧
     (extract_text_from_pdf (PdfEnv.doc [PageRead.extracted (some "A")])).lookup
        "pages" =
      (extract_text_from_pdf (PdfEnv.doc [PageRead.extracted (some "A")])).lookup
        "pages" ∧
     (extract_text_from_pdf (PdfEnv.doc [PageRead.extracted (some "A")])).lookup
        "length" =
      (extract_text_from_pdf (PdfEnv.doc [PageRead.extracted (some "A")])).lookup
        "length") :=
  ⟨rfl, C8_idempotent (PdfEnv.doc [PageRead.extracted (some "A")])
    (PdfEnv.doc [PageRead.extracted (some "A")]) rfl⟩

/-- C9: a successful result consists of exactly the keys success, text,
pages, length, in that order; in particular the error key is absent. -/
theorem C9_no_error_key (env : PdfEnv)
    (h : (extract_text_from_pdf env).lookup "success" =
      some (PyVal.bool true)) :
    (extract_text_from_pdf env).map Prod.fst =
      ["success", "text", "pages", "length"] ∧
    (extract_text_from_pdf env).lookup "error" = none := by
  cases env with
  | openFail msg =>
      exfalso
      have hfalse : (extract_text_from_pdf (PdfEnv.openFail msg)).lookup
          "success" = some (PyVal.bool false) := rfl
      rw [h] at hfalse
      exact absurd hfalse (by decide)
  | doc pages =>
      cases henv : extractLoop pages "" with
      | error msg =>
          exfalso
          have hfalse : (extract_text_from_pdf (PdfEnv.doc pages)).lookup
              "success" = some (PyVal.bool false) := by
            rw [extract_doc_of_loop_error pages msg henv]
            rfl
          rw [h] at hfalse
          exact absurd hfalse (by decide)
      | ok acc =>
          rw [extract_doc_of_loop_ok pages acc henv]
          exact ⟨rfl, rfl⟩

/-- Witness for C9 at the empty document, which succeeds. -/
theorem C9_witness :
    ((extract_text_from_pdf (PdfEnv.doc [])).lookup "success" =
      some (PyVal.bool true)) ∧
    ((extract_text_from_pdf (PdfEnv.doc [])).map Prod.fst =
      ["success", "text", "pages", "length"] ∧
     (extract_text_from_pdf (PdfEnv.doc [])).lookup "error" = none) :=
  ⟨by decide, C9_no_error_key (PdfEnv.doc []) (by decide)⟩

/-- C10: when some page's `extract_text()` returns `None`, the resulting
`AttributeError` from `.strip()` is caught and the call returns the
failure dict. -/
theorem C10_none_page (ts : List String) (rest : List PageRead) :
    extract_text_from_pdf
        (.doc (allStringPages ts ++ PageRead.extracted none :: rest)) =
      failureDict noneStripMsg := by
  apply extract_doc_of_loop_error
  simp only [allStringPages]
  rw [extractLoop_map_append]
  rfl

end ExtractPdf
